import Mathlib

/-!
Shallow embedding of `countdowntimer_model/models.py` (class `CountdownTimer`).

Modelling choices:
* Timezone-aware datetimes are absolute instants, modelled as `Int` (seconds).
  `astimezone` / `replace(tzinfo=...)` on an aware UTC datetime never changes
  the instant, so `_now_dt` returns the current instant unchanged whatever
  `timezone_override` holds.
* `timedelta` values are `Int` seconds; `timedelta(minutes=m)` is `60 * m`.
* Nullable Django fields are `Option Int`; `none` is SQL NULL / Python `None`.
* A Python expression that raises (e.g. `datetime - None`) is modelled by an
  `Option`-valued function returning `none`.
* The private name-mangled attribute `__original_duration_in_minutes`
  (set to `duration_in_minutes` in `__init__`, and again at the end of `save`)
  is the field `original_duration_in_minutes`.
* `save` takes the current instant `now` as an explicit argument; within one
  call every internal `_now_dt()` read returns that same instant.
* The optional tenant collaborator is an explicit `tenant_now : Option Int`:
  `some v` means `self.tenant.aware_now_dt()` succeeds returning `v`;
  `none` means the attribute is missing or the call raises (the `except`
  branch of `remaining_time` then falls back to `_now_dt`).
-/

/-- `CountdownTimer.STATE.PAUSED = 1`. -/
def STATE_PAUSED : Int := 1

/-- `CountdownTimer.STATE.RUNNING = 2`. -/
def STATE_RUNNING : Int := 2

/-- The fields of a `CountdownTimer` row, plus the remembered
`__original_duration_in_minutes` instance attribute. -/
structure Timer where
  duration_in_minutes : Int
  state : Int
  timezone_override : Option String
  start_date_offset_in_minutes : Int
  paused_at : Option Int
  cumulative_pause_duration : Int
  original_start_at : Option Int
  original_end_at : Option Int
  modified_start_at : Option Int
  modified_end_at : Option Int
  original_duration_in_minutes : Int
deriving DecidableEq, Repr

/-- `_now_dt`: the current instant; a timezone conversion keeps the instant. -/
def now_dt (_t : Timer) (now : Int) : Int := now

/-- `save`, first block: reset the timer when `duration_in_minutes` differs
from `__original_duration_in_minutes`. -/
def rearm_step (t : Timer) : Timer :=
  if t.duration_in_minutes ≠ t.original_duration_in_minutes then
    { t with original_start_at := none
             paused_at := none
             cumulative_pause_duration := 0 }
  else t

/-- `save`, second block: assign initial values when `original_start_at` is
`None`. -/
def init_step (t : Timer) (now : Int) : Timer :=
  match t.original_start_at with
  | none =>
      let s := now + 60 * t.start_date_offset_in_minutes
      { t with original_start_at := some s
               original_end_at := some (s + 60 * t.duration_in_minutes) }
  | some _ => t

/-- `_pause_delta`: how much time passed since `paused_at` (zero when the
timer is not marked paused). -/
def pause_delta (t : Timer) (now : Int) : Int :=
  match t.paused_at with
  | some p => now - p
  | none => 0

/-- `save`, cases 1 and 2: entering the paused state records `paused_at`;
leaving it folds `_pause_delta` into `cumulative_pause_duration` and clears
`paused_at`. -/
def pause_step (t : Timer) (now : Int) : Timer :=
  if t.state = STATE_PAUSED then
    match t.paused_at with
    | none => { t with paused_at := some now }
    | some _ => t
  else
    match t.paused_at with
    | some _ =>
        { t with cumulative_pause_duration :=
                   t.cumulative_pause_duration + pause_delta t now
                 paused_at := none }
    | none => t

/-- `save`, last block: recompute the modified date/times and remember the
current duration.  In the Python code `original_start_at` is always set at
this point; `Option.map` carries the (unreachable through `save`) unset case
through. -/
def finalize_step (t : Timer) : Timer :=
  { t with
    modified_start_at :=
      t.original_start_at.map (fun s => s + t.cumulative_pause_duration)
    modified_end_at :=
      t.original_end_at.map (fun e => e + t.cumulative_pause_duration)
    original_duration_in_minutes := t.duration_in_minutes }

/-- `CountdownTimer.save`: the recalculation operation, at instant `now`. -/
def save (t : Timer) (now : Int) : Timer :=
  finalize_step (pause_step (init_step (rearm_step t) now) now)

/-- `_conditional_pause_delta`: `now - paused_at` when the state is PAUSED
(raising — `none` — when `paused_at` is `None`, since the code subtracts it
without a check), else the zero timedelta. -/
def conditional_pause_delta (t : Timer) (now : Int) : Option Int :=
  if t.state = STATE_PAUSED then
    match t.paused_at with
    | some p => some (now - p)
    | none => none
  else some 0

/-- `remaining_time`: time left, ignoring pause time.  `tenant_now` is the
tenant clock: used for `now_dt` when it succeeds, else `_now_dt` is the
fallback.  `_conditional_pause_delta` internally calls `_now_dt`, hence uses
the built-in `now` even when the tenant clock supplied `now_dt`. -/
def remaining_time (t : Timer) (tenant_now : Option Int) (now : Int) :
    Option Int :=
  let nowdt := tenant_now.getD (now_dt t now)
  match conditional_pause_delta t now, t.modified_end_at with
  | some d, some me =>
      let enddt := d + me
      if nowdt > enddt then some 0 else some (enddt - nowdt)
  | _, _ => none

/-- Python `timedelta.seconds`: the seconds component after normalisation,
`d - 86400 * (d // 86400)`, always in `[0, 86400)`. -/
def timedeltaSeconds (d : Int) : Int := d - 86400 * Int.fdiv d 86400

/-- `round(abs(s / 60))` for `s = timedelta.seconds` (so `0 ≤ s`): Python's
round-half-to-even of `s / 60`. -/
def pyRoundDiv60 (s : Int) : Int :=
  let q := Int.ediv s 60
  let r := Int.emod s 60
  if r < 30 then q
  else if 30 < r then q + 1
  else if Int.emod q 2 = 0 then q else q + 1

/-- The `round(abs(x.seconds / 60))` idiom shared by every in-minutes
variant. -/
def timedeltaMinutes (d : Int) : Int := pyRoundDiv60 (timedeltaSeconds d)

/-- `remaining_time_in_minutes`. -/
def remaining_time_in_minutes (t : Timer) (tenant_now : Option Int)
    (now : Int) : Option Int :=
  (remaining_time t tenant_now now).map timedeltaMinutes

/-- `remaining_future_datetime`: `_now_dt() + timedelta(minutes=...)` — note
the built-in clock here, not the tenant clock. -/
def remaining_future_datetime (t : Timer) (tenant_now : Option Int)
    (now : Int) : Option Int :=
  (remaining_time_in_minutes t tenant_now now).map
    (fun m => now_dt t now + 60 * m)

/-- `time_elapsed`: elapsed time against `original_start_at` shifted by the
open pause delta.  The method reads `now_dt = self._now_dt()` directly — it
never consults the tenant clock. -/
def time_elapsed (t : Timer) (now : Int) : Option Int :=
  let nowdt := now_dt t now
  match conditional_pause_delta t now, t.original_start_at with
  | some d, some os =>
      let startdt := d + os
      if startdt > nowdt then some 0 else some (nowdt - startdt)
  | _, _ => none

/-- `time_elapsed_in_minutes`. -/
def time_elapsed_in_minutes (t : Timer) (now : Int) : Option Int :=
  (time_elapsed t now).map timedeltaMinutes

/-- `time_elapsed_since_beginning`: wall-clock time since
`original_start_at`, pause time included.  Also reads only `_now_dt()`.
Comparing a `None` start against a datetime raises, hence `none`. -/
def time_elapsed_since_beginning (t : Timer) (now : Int) : Option Int :=
  match t.original_start_at with
  | some os => if os > now_dt t now then some 0 else some (now_dt t now - os)
  | none => none

/-- `time_elapsed_since_beginning_in_minutes`. -/
def time_elapsed_since_beginning_in_minutes (t : Timer) (now : Int) :
    Option Int :=
  (time_elapsed_since_beginning t now).map timedeltaMinutes

/-! ### Basic facts about the recalculation steps -/

lemma rearm_duration (t : Timer) :
    (rearm_step t).duration_in_minutes = t.duration_in_minutes := by
  unfold rearm_step; split <;> rfl

lemma rearm_state (t : Timer) : (rearm_step t).state = t.state := by
  unfold rearm_step; split <;> rfl

lemma rearm_offset (t : Timer) :
    (rearm_step t).start_date_offset_in_minutes =
      t.start_date_offset_in_minutes := by
  unfold rearm_step; split <;> rfl

lemma init_paused (t : Timer) (now : Int) :
    (init_step t now).paused_at = t.paused_at := by
  unfold init_step; split <;> rfl

lemma init_cum (t : Timer) (now : Int) :
    (init_step t now).cumulative_pause_duration =
      t.cumulative_pause_duration := by
  unfold init_step; split <;> rfl

lemma init_state (t : Timer) (now : Int) :
    (init_step t now).state = t.state := by
  unfold init_step; split <;> rfl

lemma init_duration (t : Timer) (now : Int) :
    (init_step t now).duration_in_minutes = t.duration_in_minutes := by
  unfold init_step; split <;> rfl

lemma pause_ostart (t : Timer) (now : Int) :
    (pause_step t now).original_start_at = t.original_start_at := by
  unfold pause_step; split <;> split <;> rfl

lemma pause_oend (t : Timer) (now : Int) :
    (pause_step t now).original_end_at = t.original_end_at := by
  unfold pause_step; split <;> split <;> rfl

lemma pause_state (t : Timer) (now : Int) :
    (pause_step t now).state = t.state := by
  unfold pause_step; split <;> split <;> rfl

lemma pause_duration (t : Timer) (now : Int) :
    (pause_step t now).duration_in_minutes = t.duration_in_minutes := by
  unfold pause_step; split <;> split <;> rfl

lemma finalize_ostart (t : Timer) :
    (finalize_step t).original_start_at = t.original_start_at := rfl

lemma finalize_oend (t : Timer) :
    (finalize_step t).original_end_at = t.original_end_at := rfl

lemma finalize_paused (t : Timer) :
    (finalize_step t).paused_at = t.paused_at := rfl

lemma finalize_cum (t : Timer) :
    (finalize_step t).cumulative_pause_duration =
      t.cumulative_pause_duration := rfl

lemma finalize_state (t : Timer) : (finalize_step t).state = t.state := rfl

lemma finalize_duration (t : Timer) :
    (finalize_step t).duration_in_minutes = t.duration_in_minutes := rfl

lemma finalize_mstart (t : Timer) :
    (finalize_step t).modified_start_at =
      t.original_start_at.map
        (fun s => s + t.cumulative_pause_duration) := rfl

lemma finalize_mend (t : Timer) :
    (finalize_step t).modified_end_at =
      t.original_end_at.map
        (fun e => e + t.cumulative_pause_duration) := rfl

lemma finalize_odur (t : Timer) :
    (finalize_step t).original_duration_in_minutes =
      t.duration_in_minutes := rfl

/-! ### Facts about `save` as a whole -/

lemma save_duration (t : Timer) (now : Int) :
    (save t now).duration_in_minutes = t.duration_in_minutes := by
  unfold save
  rw [finalize_duration, pause_duration, init_duration, rearm_duration]

lemma save_state (t : Timer) (now : Int) : (save t now).state = t.state := by
  unfold save
  rw [finalize_state, pause_state, init_state, rearm_state]

lemma save_odur (t : Timer) (now : Int) :
    (save t now).original_duration_in_minutes = t.duration_in_minutes := by
  unfold save
  rw [finalize_odur, pause_duration, init_duration, rearm_duration]

lemma save_ostart_isSome (t : Timer) (now : Int) :
    ∃ s, (save t now).original_start_at = some s := by
  unfold save
  rw [finalize_ostart, pause_ostart]
  rcases h : (rearm_step t).original_start_at with _ | s
  · exact ⟨now + 60 * (rearm_step t).start_date_offset_in_minutes,
      by simp [init_step, h]⟩
  · exact ⟨s, by simp [init_step, h]⟩

lemma save_mstart (t : Timer) (now : Int) :
    (save t now).modified_start_at =
      ((save t now).original_start_at).map
        (fun s => s + (save t now).cumulative_pause_duration) := rfl

lemma save_mend (t : Timer) (now : Int) :
    (save t now).modified_end_at =
      ((save t now).original_end_at).map
        (fun e => e + (save t now).cumulative_pause_duration) := rfl

lemma save_paused_of_running (t : Timer) (now : Int)
    (h : t.state ≠ STATE_PAUSED) : (save t now).paused_at = none := by
  unfold save
  rw [finalize_paused]
  unfold pause_step
  rw [init_state, rearm_state]
  rw [if_neg h]
  split <;> simp_all

lemma save_paused_of_paused (t : Timer) (now : Int)
    (h : t.state = STATE_PAUSED) : ∃ p, (save t now).paused_at = some p := by
  unfold save
  rw [finalize_paused]
  unfold pause_step
  rw [init_state, rearm_state, if_pos h]
  rcases hp : (init_step (rearm_step t) now).paused_at with _ | p
  · exact ⟨now, by simp [hp]⟩
  · exact ⟨p, by simp [hp]⟩

/-! ### Concrete timers (the spec's worked scenario, `T0 = 0`, seconds) -/

/-- A freshly constructed timer: `duration_in_minutes=60`,
`start_date_offset_in_minutes=0`, state RUNNING, nothing derived yet;
`__init__` remembered the duration. -/
def scenario0 : Timer :=
  { duration_in_minutes := 60
    state := STATE_RUNNING
    timezone_override := none
    start_date_offset_in_minutes := 0
    paused_at := none
    cumulative_pause_duration := 0
    original_start_at := none
    original_end_at := none
    modified_start_at := none
    modified_end_at := none
    original_duration_in_minutes := 60 }

/-- The scenario timer right after its first recalculation at `T0 = 0`. -/
def scenario1 : Timer := save scenario0 0

/-- The scenario timer paused at `T0+10m` and recalculated. -/
def scenario2 : Timer := save { scenario1 with state := STATE_PAUSED } 600

/-- The scenario timer resumed at `T0+25m` and recalculated. -/
def scenario3 : Timer := save { scenario2 with state := STATE_RUNNING } 1500

/-- C1: changing `duration_in_minutes` away from the remembered value makes
`save` discard all prior progress: the start/end are re-derived from the
current `now` and the offset, the cumulative pause duration is reset to
zero, and the old `paused_at` is discarded (re-set to `now` only when the
state is PAUSED, per the later transition step). -/
theorem duration_change_rearms (t : Timer) (now : Int)
    (h : t.duration_in_minutes ≠ t.original_duration_in_minutes) :
    (save t now).original_start_at =
        some (now + 60 * t.start_date_offset_in_minutes) ∧
    (save t now).original_end_at =
        some (now + 60 * t.start_date_offset_in_minutes
              + 60 * t.duration_in_minutes) ∧
    (save t now).cumulative_pause_duration = 0 ∧
    (save t now).paused_at =
      (if t.state = STATE_PAUSED then some now else none) := by
  have hr : rearm_step t =
      { t with original_start_at := none
               paused_at := none
               cumulative_pause_duration := 0 } := by
    unfold rearm_step; rw [if_pos h]
  by_cases hs : t.state = STATE_PAUSED <;>
    · unfold save
      rw [hr]
      simp [init_step, pause_step, finalize_step, hs]

/-- Concrete instance for `duration_change_rearms`: the scenario timer with
its duration edited from 60 to 30 minutes, recalculated at instant 2000. -/
def rearmed : Timer := { scenario1 with duration_in_minutes := 30 }

/-- Witness for C1 at `rearmed`, `now = 2000`. -/
theorem duration_change_rearms_witness :
    rearmed.duration_in_minutes ≠ rearmed.original_duration_in_minutes ∧
    ((save rearmed 2000).original_start_at =
        some (2000 + 60 * rearmed.start_date_offset_in_minutes) ∧
     (save rearmed 2000).original_end_at =
        some (2000 + 60 * rearmed.start_date_offset_in_minutes
              + 60 * rearmed.duration_in_minutes) ∧
     (save rearmed 2000).cumulative_pause_duration = 0 ∧
     (save rearmed 2000).paused_at =
       (if rearmed.state = STATE_PAUSED then some 2000 else none)) :=
  ⟨by decide, duration_change_rearms rearmed 2000 (by decide)⟩

/-- C5: with no duration change pending, `save` performs the pause-state
transitions exactly: entering PAUSED with `paused_at` unset records `now`;
recalculating while already paused leaves `paused_at` (and the cumulative
pause duration) unchanged; leaving PAUSED folds `now - paused_at` into
`cumulative_pause_duration` and clears `paused_at`. -/
theorem pause_transitions (t : Timer) (now : Int)
    (hd : t.duration_in_minutes = t.original_duration_in_minutes) :
    (t.state = STATE_PAUSED → t.paused_at = none →
        (save t now).paused_at = some now ∧
        (save t now).cumulative_pause_duration
            = t.cumulative_pause_duration) ∧
    (∀ p, t.state = STATE_PAUSED → t.paused_at = some p →
        (save t now).paused_at = some p ∧
        (save t now).cumulative_pause_duration
            = t.cumulative_pause_duration) ∧
    (∀ p, t.state ≠ STATE_PAUSED → t.paused_at = some p →
        (save t now).cumulative_pause_duration
            = t.cumulative_pause_duration + (now - p) ∧
        (save t now).paused_at = none) := by
  have hr : rearm_step t = t := by
    unfold rearm_step; rw [if_neg (by simp [hd])]
  refine ⟨fun hs hp => ?_, fun p hs hp => ?_, fun p hs hp => ?_⟩ <;>
    · unfold save
      rw [hr]
      simp [pause_step, finalize_step, pause_delta,
            init_state, init_paused, init_cum, hs, hp]

/-- Witness for C5 at `scenario2` (paused, `paused_at = 600`) resumed — the
out-of-PAUSED transition — at instant 1500. -/
theorem pause_transitions_witness :
    ({ scenario2 with state := STATE_RUNNING } : Timer).duration_in_minutes
        = ({ scenario2 with state := STATE_RUNNING } : Timer).original_duration_in_minutes ∧
    ((save { scenario2 with state := STATE_RUNNING } 1500).cumulative_pause_duration
        = ({ scenario2 with state := STATE_RUNNING } : Timer).cumulative_pause_duration
          + (1500 - 600) ∧
     (save { scenario2 with state := STATE_RUNNING } 1500).paused_at = none) :=
  ⟨by decide,
   (pause_transitions { scenario2 with state := STATE_RUNNING } 1500
      (by decide)).2.2 600 (by decide) (by decide)⟩

/-- C2: after any `save`, the derived-field invariants hold — the original
end is the original start plus the duration, and the modified start/end are
the original ones shifted by the (post-save) cumulative pause duration.  The
hypothesis is the end-invariant on the incoming state, needed only when the
start survives the call (it holds for every state `save` itself produces). -/
theorem save_invariants (t : Timer) (now : Int)
    (hinv : t.duration_in_minutes = t.original_duration_in_minutes →
      ∀ s, t.original_start_at = some s →
        t.original_end_at = some (s + 60 * t.duration_in_minutes)) :
    ∃ s, (save t now).original_start_at = some s ∧
      (save t now).original_end_at
          = some (s + 60 * t.duration_in_minutes) ∧
      (save t now).modified_start_at
          = some (s + (save t now).cumulative_pause_duration) ∧
      (save t now).modified_end_at
          = some (s + 60 * t.duration_in_minutes
                  + (save t now).cumulative_pause_duration) := by
  obtain ⟨s, hs, he⟩ :
      ∃ s, (save t now).original_start_at = some s ∧
        (save t now).original_end_at
            = some (s + 60 * t.duration_in_minutes) := by
    by_cases hd : t.duration_in_minutes = t.original_duration_in_minutes
    · have hr : rearm_step t = t := by
        unfold rearm_step; rw [if_neg (by simp [hd])]
      rcases ho : t.original_start_at with _ | s
      · refine ⟨now + 60 * t.start_date_offset_in_minutes, ?_, ?_⟩ <;>
          · unfold save
            rw [hr]
            simp [finalize_ostart, finalize_oend, pause_ostart, pause_oend,
                  init_step, ho]
      · refine ⟨s, ?_, ?_⟩
        · unfold save
          rw [hr]
          simp [finalize_ostart, pause_ostart, init_step, ho]
        · have hoe := hinv hd s ho
          unfold save
          rw [hr]
          simp [finalize_oend, pause_oend, init_step, ho, hoe]
    · have hr : rearm_step t =
          { t with original_start_at := none
                   paused_at := none
                   cumulative_pause_duration := 0 } := by
        unfold rearm_step; rw [if_pos hd]
      refine ⟨now + 60 * t.start_date_offset_in_minutes, ?_, ?_⟩ <;>
        · unfold save
          rw [hr]
          simp [finalize_ostart, finalize_oend, pause_ostart, pause_oend,
                init_step]
  refine ⟨s, hs, he, ?_, ?_⟩
  · rw [save_mstart, hs]; rfl
  · rw [save_mend, he]; rfl

/-- Witness for C2 at `scenario1` (start already set), recalculated again at
instant 1000. -/
theorem save_invariants_witness :
    ∃ s, (save scenario1 1000).original_start_at = some s ∧
      (save scenario1 1000).original_end_at
          = some (s + 60 * scenario1.duration_in_minutes) ∧
      (save scenario1 1000).modified_start_at
          = some (s + (save scenario1 1000).cumulative_pause_duration) ∧
      (save scenario1 1000).modified_end_at
          = some (s + 60 * scenario1.duration_in_minutes
                  + (save scenario1 1000).cumulative_pause_duration) :=
  save_invariants scenario1 1000
    (by
      intro _ s h
      have h0 : (some (0 : Int)) = some s := h
      cases h0
      decide)

/-- C3: `remaining_time` returns `max 0 (end - now)`, where the end is
`modified_end_at` shifted by the open pause delta (`now - paused_at` while
PAUSED, zero otherwise), and its result is never negative. -/
theorem remaining_time_clamped (t : Timer) (now me : Int)
    (hme : t.modified_end_at = some me) :
    (t.state ≠ STATE_PAUSED →
        remaining_time t none now = some (max 0 (me - now))) ∧
    (∀ p, t.state = STATE_PAUSED → t.paused_at = some p →
        remaining_time t none now
            = some (max 0 (me + (now - p) - now))) ∧
    (∀ r, remaining_time t none now = some r → 0 ≤ r) := by
  refine ⟨fun hs => ?_, fun p hs hp => ?_, fun r h => ?_⟩
  · simp only [remaining_time, conditional_pause_delta, now_dt, if_neg hs,
               hme, Option.getD]
    split <;> [skip; skip] <;> congr 1 <;> omega
  · simp only [remaining_time, conditional_pause_delta, now_dt, if_pos hs,
               hme, hp, Option.getD]
    split <;> [skip; skip] <;> congr 1 <;> omega
  · simp only [remaining_time, Option.getD] at h
    split at h
    · split at h <;> · cases h; omega
    · cases h

/-- Witness for C3 at `scenario3` (running, `modified_end_at = 4500`) read
at instant 2100, and at the far instant 100000 where the clamp gives zero. -/
theorem remaining_time_clamped_witness :
    scenario3.modified_end_at = some 4500 ∧
    scenario3.state ≠ STATE_PAUSED ∧
    remaining_time scenario3 none 2100 = some (max 0 (4500 - 2100)) ∧
    remaining_time scenario3 none 100000 = some (max 0 (4500 - 100000)) :=
  ⟨by decide, by decide,
   (remaining_time_clamped scenario3 2100 4500 (by decide)).1 (by decide),
   (remaining_time_clamped scenario3 100000 4500 (by decide)).1 (by decide)⟩

/-- C9 (proved in a stronger form): recalculating an already-recalculated
timer, with no field changes in between, changes nothing at all — even at a
later instant. -/
theorem save_idempotent (t : Timer) (now now2 : Int) :
    save (save t now) now2 = save t now := by
  obtain ⟨s, hs⟩ := save_ostart_isSome t now
  have hre : rearm_step (save t now) = save t now := by
    unfold rearm_step
    rw [if_neg (by simp [save_duration, save_odur])]
  have hin : init_step (save t now) now2 = save t now := by
    unfold init_step; rw [hs]
  have hpa : pause_step (save t now) now2 = save t now := by
    by_cases hq : (save t now).state = STATE_PAUSED
    · obtain ⟨p, hp⟩ := save_paused_of_paused t now
        (by rw [← save_state t now]; exact hq)
      unfold pause_step
      rw [if_pos hq, hp]
    · have hp := save_paused_of_running t now
        (by rw [← save_state t now]; exact hq)
      unfold pause_step
      rw [if_neg hq, hp]
  have hfi : finalize_step (save t now) = save t now := by
    have h1 := save_mstart t now
    have h2 := save_mend t now
    have h3 := save_odur t now
    have h4 := save_duration t now
    cases htt : save t now
    rw [htt] at h1 h2 h3 h4
    unfold finalize_step
    simp_all
  show finalize_step (pause_step (init_step (rearm_step (save t now)) now2)
      now2) = save t now
  rw [hre, hin, hpa, hfi]

/-! ### Query operations as state transformers (C10)

Each Python query method, read as a state transformer on the receiver,
returns its value together with the post-call field state; the method bodies
only read fields (no assignment occurs anywhere in them), so the post-call
state is the receiver itself. -/

/-- `remaining_time` as a (value, post-state) method call. -/
def remaining_timeM (t : Timer) (tenant_now : Option Int) (now : Int) :
    Option Int × Timer := (remaining_time t tenant_now now, t)

/-- `remaining_time_in_minutes` as a (value, post-state) method call. -/
def remaining_time_in_minutesM (t : Timer) (tenant_now : Option Int)
    (now : Int) : Option Int × Timer :=
  (remaining_time_in_minutes t tenant_now now, t)

/-- `remaining_future_datetime` as a (value, post-state) method call. -/
def remaining_future_datetimeM (t : Timer) (tenant_now : Option Int)
    (now : Int) : Option Int × Timer :=
  (remaining_future_datetime t tenant_now now, t)

/-- `time_elapsed` as a (value, post-state) method call. -/
def time_elapsedM (t : Timer) (now : Int) : Option Int × Timer :=
  (time_elapsed t now, t)

/-- `time_elapsed_in_minutes` as a (value, post-state) method call. -/
def time_elapsed_in_minutesM (t : Timer) (now : Int) : Option Int × Timer :=
  (time_elapsed_in_minutes t now, t)

/-- `time_elapsed_since_beginning` as a (value, post-state) method call. -/
def time_elapsed_since_beginningM (t : Timer) (now : Int) :
    Option Int × Timer := (time_elapsed_since_beginning t now, t)

/-- `time_elapsed_since_beginning_in_minutes` as a (value, post-state)
method call. -/
def time_elapsed_since_beginning_in_minutesM (t : Timer) (now : Int) :
    Option Int × Timer := (time_elapsed_since_beginning_in_minutes t now, t)

/-- C10: no query operation mutates any timer field: the post-call state of
every query method equals the receiver, for every timer, tenant clock and
instant. -/
theorem queries_do_not_mutate (t : Timer) (tenant_now : Option Int)
    (now : Int) :
    (remaining_timeM t tenant_now now).2 = t ∧
    (remaining_time_in_minutesM t tenant_now now).2 = t ∧
    (remaining_future_datetimeM t tenant_now now).2 = t ∧
    (time_elapsedM t now).2 = t ∧
    (time_elapsed_in_minutesM t now).2 = t ∧
    (time_elapsed_since_beginningM t now).2 = t ∧
    (time_elapsed_since_beginning_in_minutesM t now).2 = t :=
  ⟨rfl, rfl, rfl, rfl, rfl, rfl, rfl⟩

/-- Python `timedelta.seconds` is the euclidean remainder of the duration
modulo one day (86400 s). -/
lemma timedeltaSeconds_eq_emod (d : Int) : timedeltaSeconds d = d % 86400 := by
  unfold timedeltaSeconds
  rw [Int.fdiv_eq_ediv d (by norm_num), Int.emod_def]

/-- C4, failing input: the spec's pause/resume scenario (armed at 0 with 60
minutes, paused at `+10m`, resumed at `+25m`, so 15 minutes of completed
pause are folded in).  Queried at `+35m`, `time_elapsed` measures from
`original_start_at` (models.py line 280), so the 15 paused minutes are
counted: it returns 35 minutes, not the 20 minutes the spec requires. -/
theorem time_elapsed_includes_folded_pauses :
    scenario3.cumulative_pause_duration = 60 * 15 ∧
    scenario3.state = STATE_RUNNING ∧
    time_elapsed scenario3 (60 * 35) = some (60 * 35) ∧
    some (60 * 35 : Int) ≠ some (60 * 20 : Int) := by decide

/-- A well-formed timer whose state was set to PAUSED after a save made
while RUNNING, with no recalculation since: `paused_at` is still unset. -/
def pausedUnmarked : Timer := { scenario1 with state := STATE_PAUSED }

/-- C6, failing input: on a PAUSED timer with `paused_at` unset,
`_conditional_pause_delta` subtracts `None` from a datetime (models.py line
233 has no `None` check, unlike `_pause_delta`), so `remaining_time`,
`time_elapsed` and their wrappers raise a `TypeError` (`none` here) instead
of returning a value; only `time_elapsed_since_beginning` survives. -/
theorem queries_raise_when_paused_unmarked :
    pausedUnmarked.state = STATE_PAUSED ∧
    pausedUnmarked.paused_at = none ∧
    remaining_time pausedUnmarked none 700 = none ∧
    remaining_time_in_minutes pausedUnmarked none 700 = none ∧
    remaining_future_datetime pausedUnmarked none 700 = none ∧
    time_elapsed pausedUnmarked 700 = none ∧
    time_elapsed_in_minutes pausedUnmarked 700 = none ∧
    time_elapsed_since_beginning pausedUnmarked 700 = some 700 ∧
    time_elapsed_since_beginning_in_minutes pausedUnmarked 700
        = some (timedeltaMinutes 700) := by decide

/-- Modelled from the claim (C7), for comparison only: `time_elapsed` as the
spec describes it — with the tenant's "aware now", when present, used as the
current instant in preference to the built-in clock.  The code's
`time_elapsed` (models.py line 279) never consults the tenant. -/
def time_elapsed_tenant_preferred (t : Timer) (tenant_now : Option Int)
    (now : Int) : Option Int :=
  let nowdt := tenant_now.getD (now_dt t now)
  match conditional_pause_delta t nowdt, t.original_start_at with
  | some d, some os =>
      let startdt := d + os
      if startdt > nowdt then some 0 else some (nowdt - startdt)
  | _, _ => none

/-- C7, counterexample: with a tenant clock reading 2100 while the built-in
clock reads 1800, `time_elapsed` answers from the built-in clock (1800 s
elapsed), not the 2100 s the claim's tenant-preferred reading requires —
the method never consults the tenant. -/
theorem time_elapsed_ignores_tenant_clock :
    time_elapsed scenario3 1800 = some 1800 ∧
    time_elapsed_tenant_preferred scenario3 (some 2100) 1800 = some 2100 ∧
    some (1800 : Int) ≠ some (2100 : Int) := by decide

/-- C7 as amended: only `remaining_time` (and the operations built on it)
prefers the tenant's aware-now value, silently falling back to the built-in
clock when the tenant is absent or fails; `time_elapsed` and
`time_elapsed_since_beginning` always use the built-in clock. -/
theorem tenant_clock_only_in_remaining_time (t : Timer) (v now me os : Int)
    (hs : t.state ≠ STATE_PAUSED)
    (hme : t.modified_end_at = some me)
    (hos : t.original_start_at = some os) :
    remaining_time t (some v) now = some (max 0 (me - v)) ∧
    remaining_time t none now = some (max 0 (me - now)) ∧
    time_elapsed t now = some (max 0 (now - os)) ∧
    time_elapsed_since_beginning t now = some (max 0 (now - os)) := by
  refine ⟨?_, ?_, ?_, ?_⟩ <;>
    · simp only [remaining_time, time_elapsed, time_elapsed_since_beginning,
        conditional_pause_delta, now_dt, if_neg hs, hme, hos, Option.getD]
      split <;> congr 1 <;> omega

/-- Witness for the amended C7 at `scenario3`, tenant clock 2100, built-in
clock 1800. -/
theorem tenant_clock_only_in_remaining_time_witness :
    scenario3.state ≠ STATE_PAUSED ∧
    (remaining_time scenario3 (some 2100) 1800 = some (max 0 (4500 - 2100)) ∧
     remaining_time scenario3 none 1800 = some (max 0 (4500 - 1800)) ∧
     time_elapsed scenario3 1800 = some (max 0 (1800 - 0)) ∧
     time_elapsed_since_beginning scenario3 1800 = some (max 0 (1800 - 0))) :=
  ⟨by decide,
   tenant_clock_only_in_remaining_time scenario3 2100 1800 4500 0
     (by decide) (by decide) (by decide)⟩

/-- A 120-minute timer armed at instant 0 while RUNNING: its remaining time
at instant 0 spans two full hours. -/
def twoHourTimer : Timer :=
  save { scenario0 with duration_in_minutes := 120
                        original_duration_in_minutes := 120 } 0

/-- Modelled from the claim (C8), for comparison only: minutes computed from
just the sub-hour remainder of the seconds, as the claim reads the code. -/
def sub_hour_only_minutes (d : Int) : Int := pyRoundDiv60 (d % 3600)

/-- C8, counterexample: a remaining duration of exactly two hours (7200 s)
is converted by `remaining_time_in_minutes` to its true total minute count
120 — multi-hour durations are not truncated; the claim's sub-hour reading
would give 0.  (`timedelta.seconds` is the sub-day remainder, not the
sub-hour one.) -/
theorem in_minutes_not_truncated_at_hour :
    remaining_time twoHourTimer none 0 = some 7200 ∧
    remaining_time_in_minutes twoHourTimer none 0 = some 120 ∧
    sub_hour_only_minutes 7200 = 0 ∧
    (7200 / 60 : Int) = 120 ∧
    (120 : Int) ≠ 0 := by decide

/-- C8 as amended: every in-minutes variant computes
`round(abs(d.seconds / 60))` where `d.seconds` is the duration's sub-DAY
remainder (its seconds within the current day, in `[0, 86400)`); durations
under one day keep their full value, so multi-hour durations convert to
their true total minute count, while durations spanning multiple days are
truncated to the sub-day remainder (25 hours yields `timedelta.seconds` of
3600, i.e. 60 minutes). -/
theorem in_minutes_use_sub_day_seconds (t : Timer) (tn : Option Int)
    (now d e g : Int)
    (h1 : remaining_time t tn now = some d)
    (h2 : time_elapsed t now = some e)
    (h3 : time_elapsed_since_beginning t now = some g) :
    remaining_time_in_minutes t tn now = some (pyRoundDiv60 (d % 86400)) ∧
    time_elapsed_in_minutes t now = some (pyRoundDiv60 (e % 86400)) ∧
    time_elapsed_since_beginning_in_minutes t now
        = some (pyRoundDiv60 (g % 86400)) ∧
    (0 ≤ d → d < 86400 → d % 86400 = d) ∧
    timedeltaSeconds 90000 = 3600 := by
  refine ⟨?_, ?_, ?_, fun h0 hlt => Int.emod_eq_of_lt h0 hlt, by decide⟩
  · unfold remaining_time_in_minutes
    rw [h1]
    simp [timedeltaMinutes, timedeltaSeconds_eq_emod]
  · unfold time_elapsed_in_minutes
    rw [h2]
    simp [timedeltaMinutes, timedeltaSeconds_eq_emod]
  · unfold time_elapsed_since_beginning_in_minutes
    rw [h3]
    simp [timedeltaMinutes, timedeltaSeconds_eq_emod]

/-- Witness for the amended C8 at `scenario3`, instant 2100 (remaining 2400
seconds, elapsed 2100 seconds). -/
theorem in_minutes_use_sub_day_seconds_witness :
    remaining_time scenario3 none 2100 = some 2400 ∧
    (remaining_time_in_minutes scenario3 none 2100
        = some (pyRoundDiv60 (2400 % 86400)) ∧
     time_elapsed_in_minutes scenario3 2100
        = some (pyRoundDiv60 (2100 % 86400)) ∧
     time_elapsed_since_beginning_in_minutes scenario3 2100
        = some (pyRoundDiv60 (2100 % 86400)) ∧
     ((0 : Int) ≤ 2400 → (2400 : Int) < 86400 → (2400 : Int) % 86400 = 2400) ∧
     timedeltaSeconds 90000 = 3600) :=
  ⟨by decide,
   in_minutes_use_sub_day_seconds scenario3 none 2100 2400 2100 2100
     (by decide) (by decide) (by decide)⟩
